import Mathlib

/-!
# Verification of the 2D-RayTracing GPU buffer / bind-group layer

Shallow embedding of the per-frame buffer management in `src/lib.rs`
(`Game::render`, `Game::resize`, `Game::new`, the redraw arm of
`Game::handle_event`) and of the surface-acquisition loop in
`src/bin/raytracing_2d.rs` (`App::window_event`).

Machine integers are modelled as `Nat` with explicit bound checks where the
code performs fallible conversions (`u32::try_from`, `usize -> u64`).
Byte lengths produced by the `encase` serializer are computed from the WGSL
storage-layout rules for the exact types declared in `src/lib.rs`:

* `Block { material: u32 }`            : align 4, size 4, array stride 4;
* `Chunk { position: Vector2<f32>, size: Vector2<u32>, blocks: [Block] }`
  member offsets 0, 8, 16; struct alignment 8;
* `Material { color: Vector3<f32> }`   : align 16, size 16, array stride 16;
* a runtime-sized array's `min_size` is one element stride.

GPU handles (the wgpu buffer and bind-group objects) are modelled by
generation counters so that staleness ("references a freed handle") is
expressible.
-/

/-- Round `n` up to the next multiple of `a`; mirrors `src/lib.rs:524-531`
(`align = start % A; if align != 0 { start += A - align }`). -/
def alignUp (a n : Nat) : Nat :=
  if n % a = 0 then n else n + (a - n % a)

/-- Array stride of `Block` (a single `u32`) in storage layout. -/
def blockStride : Nat := 4

/-- Byte offset of the runtime `blocks` tail inside `Chunk`
(after `position : Vector2<f32>` at 0 and `size : Vector2<u32>` at 8). -/
def chunkBlocksOffset : Nat := 16

/-- Struct alignment of `Chunk` (max of member alignments 8, 8, 4). -/
def chunkAlignment : Nat := 8

/-- Serialized byte size of a `Chunk` holding `n` blocks: the fixed prefix
plus `n` stride-4 elements, padded to the struct alignment. -/
def chunkSerializedSize (n : Nat) : Nat :=
  alignUp chunkAlignment (chunkBlocksOffset + blockStride * n)

/-- Value of `<Chunk as ShaderType>::min_size()` — the size with a one-element tail. -/
def chunkMinSize : Nat := chunkSerializedSize 1

/-- Array stride of `Material` (`Vector3<f32>`: size 12 aligned to 16). -/
def materialStride : Nat := 16

/-- Serialized byte size of a materials table with `k` entries. -/
def materialsSerializedSize (k : Nat) : Nat := materialStride * k

/-- Value of `<&[Material] as ShaderType>::min_size()` — one element stride. -/
def materialsMinSize : Nat := materialStride

/-- The write alignment that `encase::DynamicStorageBuffer::new` applies to
each write offset (256, the library default). -/
def dynamicStorageWriteAlignment : Nat := 256

/-- Value of `wgpu::Limits::default().min_storage_buffer_offset_alignment`, the value
`Game::new` stores via `device.limits()` after requesting default limits. -/
def defaultMinStorageBufferOffsetAlignment : Nat := 256

/-- Value of `u32::MAX`. -/
def u32Max : Nat := 4294967295

/-- Projection of the `Game` struct in `src/lib.rs` onto the fields the
buffer/bind-group claims are about.  Buffer and bind-group handles are
generation counters (`bufId`, `bindGroupGen`); `freed` collects the buffer
generations dropped by growth; `aspectNum`/`aspectDen` are the integer
operands of the `f32` division producing `camera.aspect_ratio`. -/
structure Game where
  materialsCount : Nat
  blocks : List Nat
  blocksWidth : Nat
  bufCapacity : Nat
  bufId : Nat
  freed : List Nat
  bindGroupGen : Nat
  bindGroupBuf : Nat
  materialStorageStart : Nat
  alignment : Nat
  surfaceWidth : Nat
  surfaceHeight : Nat
  aspectNum : Nat
  aspectDen : Nat
  deriving DecidableEq, Repr

/-- Model of `Game::new` (`src/lib.rs:86-311`) restricted to the modelled fields:
three materials, the fixed four-block scene of width 2, the initial
block-storage buffer of size `Chunk::min_size() + <&[Material]>::min_size()`,
the initial bind group referencing that buffer, surface dimensions clamped
to at least 1, and the camera aspect ratio computed from the *unclamped*
window size (`src/lib.rs:294`). -/
def initGame (w h : Nat) : Game where
  materialsCount := 3
  blocks := [0, 1, 2, u32Max]
  blocksWidth := 2
  bufCapacity := chunkMinSize + materialsMinSize
  bufId := 0
  freed := []
  bindGroupGen := 0
  bindGroupBuf := 0
  materialStorageStart := 0
  alignment := defaultMinStorageBufferOffsetAlignment
  surfaceWidth := max w 1
  surfaceHeight := max h 1
  aspectNum := w
  aspectDen := h

/-- Events recorded by one execution of `Game::render`, in program order. -/
inductive Ev
  | writeCameraBuffer
  | createBuffer (id : Nat)
  | createBindGroup (gen buf : Nat)
  | writeBlockBuffer (id : Nat)
  | beginPass
  | setPipeline
  | setCameraBindGroup
  | setBlockBindGroup (gen buf : Nat)
  | draw
  | submit
  deriving DecidableEq, Repr

/-- Ways `Game::render` can fail early: `assertionFailed` models the
`assert!` panic at `src/lib.rs:508`, `conversionFailed` models a `?` on
`u32::try_from` / `try_into::<u64>` (`src/lib.rs:515,523,543`). -/
inductive RenderError
  | assertionFailed
  | conversionFailed
  deriving DecidableEq, Repr

/-- Result of one `Game::render` call. -/
inductive RenderOut
  | ok (tr : List Ev)
  | err (e : RenderError)
  deriving DecidableEq, Repr

/-- The growth condition of `src/lib.rs:537-539`:
`buffer.len() > block_storage_buffer.size() - <&[Material]>::min_size()`. -/
def needsGrowth (cap len : Nat) : Bool :=
  len > cap - materialsMinSize

/-- Capacity after one write of serialized length `len` against capacity
`cap` — the effect of `src/lib.rs:537-548`: reallocate to
`len + <&[Material]>::min_size()` when the content no longer fits,
otherwise keep the buffer. -/
def growCap (cap len : Nat) : Nat :=
  if needsGrowth cap len then len + materialsMinSize else cap

/-- Total buffer length after packing the chunk prefix and the materials
table, as `Game::render` builds it: the chunk bytes, the tail offset
aligned up to the device limit, then the materials table written at that
offset (the `DynamicStorageBuffer` write offset is itself 256-aligned,
a no-op for every 256-aligned start). -/
def packedLen (start k : Nat) : Nat :=
  alignUp dynamicStorageWriteAlignment start + materialsSerializedSize k

/-- Computation of `size.y` of the serialized chunk (`src/lib.rs:515-518`):
`u32::try_from(blocks.len())?.checked_div(blocks_width).unwrap_or(0)`. -/
def checkedDiv (a b : Nat) : Option Nat :=
  if b = 0 then none else some (a / b)

/-- The guarded vertical cell count actually stored in the chunk. -/
def chunkSizeY (len width : Nat) : Nat :=
  (checkedDiv len width).getD 0

/-- The tail offset `material_storage_start` that `Game::render` computes
for state `g` (`src/lib.rs:523-531`): the serialized chunk length rounded
up to the device's minimum storage-buffer offset alignment. -/
def renderTailStart (g : Game) : Nat :=
  alignUp g.alignment (chunkSerializedSize g.blocks.length)

/-- The scratch `buffer.len()` that `Game::render` produces for state `g`:
chunk bytes, alignment padding, then the materials table. -/
def renderBufLen (g : Game) : Nat :=
  packedLen (renderTailStart g) g.materialsCount

/-- Model of `Game::render` (`src/lib.rs:491-609`) restricted to the modelled state,
returning the mutated state plus either the event trace of the frame or the
error the `?`/`assert!` sites produce.  Program order:
camera uniform write; `assert!` on the block count (`:508`, a panic);
`u32::try_from` on the block count (`:515`); chunk serialization;
`try_into::<u64>` of the scratch length (`:523`); tail-offset alignment;
materials write; growth check (`:537-548`) with `u64::try_from` of the
final length (`:543`); unconditional bind-group rebuild (`:550-572`);
block-buffer write (`:573`); pass recording; submit. -/
def gameRender (g : Game) : Game × RenderOut :=
  -- assert!(blocks.is_empty() || blocks.len() % blocks_width == 0)
  if ¬(g.blocks.length = 0 ∨ g.blocks.length % g.blocksWidth = 0) then
    (g, .err .assertionFailed)
  -- u32::try_from(self.blocks.len())?
  else if ¬(g.blocks.length < 2 ^ 32) then
    (g, .err .conversionFailed)
  -- material_storage_start = chunk_buffer.into_inner().len().try_into()?
  else if ¬(chunkSerializedSize g.blocks.length < 2 ^ 64) then
    (g, .err .conversionFailed)
  else if needsGrowth g.bufCapacity (renderBufLen g) then
    -- wgpu::BufferAddress::try_from(buffer.len())?
    if ¬(renderBufLen g < 2 ^ 64) then
      ({ g with materialStorageStart := renderTailStart g },
       .err .conversionFailed)
    else
      ({ g with
           materialStorageStart := renderTailStart g
           bufCapacity := growCap g.bufCapacity (renderBufLen g)
           bufId := g.bufId + 1
           freed := g.bufId :: g.freed
           bindGroupGen := g.bindGroupGen + 1
           bindGroupBuf := g.bufId + 1 },
       .ok
        [.writeCameraBuffer,
         .createBuffer (g.bufId + 1),
         .createBindGroup (g.bindGroupGen + 1) (g.bufId + 1),
         .writeBlockBuffer (g.bufId + 1),
         .beginPass, .setPipeline, .setCameraBindGroup,
         .setBlockBindGroup (g.bindGroupGen + 1) (g.bufId + 1),
         .draw, .submit])
  else
    ({ g with
         materialStorageStart := renderTailStart g
         bindGroupGen := g.bindGroupGen + 1
         bindGroupBuf := g.bufId },
     .ok
      [.writeCameraBuffer,
       .createBindGroup (g.bindGroupGen + 1) g.bufId,
       .writeBlockBuffer g.bufId,
       .beginPass, .setPipeline, .setCameraBindGroup,
       .setBlockBindGroup (g.bindGroupGen + 1) g.bufId,
       .draw, .submit])

/-- Model of `Game::resize` (`src/lib.rs:611-620`): clamp both surface dimensions to
at least 1, reconfigure, and recompute the camera aspect ratio from the
clamped configuration. -/
def gameResize (g : Game) (w h : Nat) : Game :=
  { g with
      surfaceWidth := max w 1
      surfaceHeight := max h 1
      aspectNum := max w 1
      aspectDen := max h 1 }

/-- The `resized` closure of `App::window_event`
(`src/bin/raytracing_2d.rs:123-129`): the surface configuration receives the
clamped dimensions and `State::resize` is called with exactly those. -/
def appResized (w h : Nat) : Nat × Nat :=
  (max w 1, max h 1)

/-- The `wgpu::SurfaceError` variants (the `Other` variant exists only in the
newer wgpu used by `src/bin/raytracing_2d.rs`; in `src/lib.rs` it is
subsumed by the catch-all `Err(err) => bail!`). -/
inductive SurfaceError
  | timeout
  | outdated
  | lost
  | outOfMemory
  | other
  deriving DecidableEq, Repr

/-- Result of one `surface.get_current_texture()` call. -/
inductive SurfaceRes
  | ok
  | err (e : SurfaceError)
  deriving DecidableEq, Repr

/-- Outcome of the `Event::RedrawRequested` arm of `Game::handle_event`. -/
inductive GameRedrawOutcome
  | rendered
  | skipped
  | escalated (e : SurfaceError)
  deriving DecidableEq, Repr

/-- The redraw arm of `Game::handle_event` (`src/lib.rs:422-440`):
`Timeout | Outdated` break out of the labelled block (the frame is skipped,
`Ok(())` is returned); any other error is `bail!`-ed; on success the frame
is rendered and presented. -/
def gameHandleRedraw : SurfaceRes → GameRedrawOutcome
  | .ok => .rendered
  | .err .timeout => .skipped
  | .err .outdated => .skipped
  | .err e => .escalated e

/-- Outcome of the acquisition loop in `App::window_event`'s
`RedrawRequested` arm.  `pending` models a loop that has consumed every
supplied acquisition result without breaking out. -/
inductive AppOutcome
  | rendered
  | aborted (e : SurfaceError)
  | pending
  deriving DecidableEq, Repr

/-- The surface-acquisition loop of `src/bin/raytracing_2d.rs:139-168`,
driven by the list of results that successive `get_current_texture` calls
yield within one `RedrawRequested` event.  `Ok` breaks the loop and the
frame is rendered in this same event; `Timeout` prints a warning and
retries; `Outdated` runs the `resized` closure and retries; `Lost`
reconfigures the surface and retries; `OutOfMemory`/`Other` print an error
and return without rendering.  The second component counts the warnings
printed for timeouts. -/
def appAcquireLoop : List SurfaceRes → AppOutcome × Nat
  | [] => (.pending, 0)
  | .ok :: _ => (.rendered, 0)
  | .err .timeout :: rest =>
      let r := appAcquireLoop rest
      (r.1, r.2 + 1)
  | .err .outdated :: rest => appAcquireLoop rest
  | .err .lost :: rest => appAcquireLoop rest
  | .err .outOfMemory :: _ => (.aborted .outOfMemory, 0)
  | .err .other :: _ => (.aborted .other, 0)

/-- States of the modelled `Game` reachable from construction through the
operations that mutate it.  The remaining event handlers
(`Game::update` and the keyboard / cursor / mouse-wheel / focus arms of
`Game::handle_event`) mutate only the camera, key-state and mouse fields,
none of which are part of this projection, so they act as the identity
here and need no constructor. -/
inductive Reachable : Game → Prop
  | init (w h : Nat) : Reachable (initGame w h)
  | render (g : Game) : Reachable g → Reachable (gameRender g).1
  | resize (g : Game) (w h : Nat) : Reachable g → Reachable (gameResize g w h)

/-- Predicate on trace events: the two `queue.write_buffer` calls. -/
def Ev.isBufferWrite : Ev → Bool
  | .writeCameraBuffer => true
  | .writeBlockBuffer _ => true
  | _ => false

/-- Predicate on trace events: the start of render-pass recording. -/
def Ev.isPassStart : Ev → Bool
  | .beginPass => true
  | _ => false

/-- A `Game` whose block list overflows `u32`, driving the
`u32::try_from(self.blocks.len())?` conversion at `src/lib.rs:515` into its
error path. -/
def overflowGame : Game :=
  { initGame 800 600 with blocks := List.replicate (2 ^ 32) 0 }

/-! ## Helper lemmas -/

theorem alignUp_mod (a n : Nat) (ha : 0 < a) : alignUp a n % a = 0 := by
  unfold alignUp
  split
  · assumption
  · rename_i hr
    have hlt : n % a < a := Nat.mod_lt _ ha
    have hdecomp : a * (n / a) + n % a = n := Nat.div_add_mod n a
    have : n + (a - n % a) = a * (n / a + 1) := by
      rw [Nat.mul_succ]
      omega
    rw [this]
    exact Nat.mul_mod_right _ _

theorem le_alignUp (a n : Nat) : n ≤ alignUp a n := by
  unfold alignUp
  split
  · exact Nat.le_refl n
  · exact Nat.le_add_right _ _

theorem le_growCap (cap len : Nat) : cap ≤ growCap cap len := by
  unfold growCap needsGrowth materialsMinSize materialStride
  split
  · rename_i hgt
    simp only [decide_eq_true_eq] at hgt
    omega
  · exact Nat.le_refl cap

theorem len_le_growCap (cap len : Nat) : len ≤ growCap cap len := by
  unfold growCap needsGrowth materialsMinSize materialStride
  split
  · exact Nat.le_add_right _ _
  · rename_i hle
    simp only [decide_eq_true_eq, Nat.not_lt] at hle
    omega

theorem le_foldl_growCap (Ls : List Nat) (cap : Nat) :
    cap ≤ Ls.foldl growCap cap := by
  induction Ls generalizing cap with
  | nil => exact Nat.le_refl cap
  | cons L rest ih =>
      exact Nat.le_trans (le_growCap cap L) (ih (growCap cap L))

theorem mem_le_foldl_growCap (Ls : List Nat) :
    ∀ (cap L : Nat), L ∈ Ls → L ≤ Ls.foldl growCap cap := by
  induction Ls with
  | nil => intro _ _ hL; cases hL
  | cons x rest ih =>
      intro cap L hL
      simp only [List.foldl_cons]
      rcases List.mem_cons.mp hL with rfl | hmem
      · exact Nat.le_trans (len_le_growCap cap L) (le_foldl_growCap rest _)
      · exact ih _ L hmem

/-- Characterization of a successful `Game::render` call: the tail offset is
the aligned one, the scene fields are untouched, exactly one new bind group
is created and it references the buffer that is current after the
(possible) growth, the capacity evolves by `growCap`, and the event trace
has one of the two recorded shapes. -/
theorem gameRender_ok_spec (g g' : Game) (tr : List Ev)
    (h : gameRender g = (g', .ok tr)) :
    g'.materialStorageStart = renderTailStart g ∧
    g'.blocks = g.blocks ∧ g'.blocksWidth = g.blocksWidth ∧
    g'.materialsCount = g.materialsCount ∧ g'.alignment = g.alignment ∧
    g'.bindGroupGen = g.bindGroupGen + 1 ∧
    g'.bindGroupBuf = g'.bufId ∧
    g'.bufCapacity = growCap g.bufCapacity (renderBufLen g) ∧
    (if needsGrowth g.bufCapacity (renderBufLen g) then
        g'.bufId = g.bufId + 1 ∧ g'.freed = g.bufId :: g.freed ∧
        tr = [.writeCameraBuffer,
              .createBuffer g'.bufId,
              .createBindGroup g'.bindGroupGen g'.bufId,
              .writeBlockBuffer g'.bufId,
              .beginPass, .setPipeline, .setCameraBindGroup,
              .setBlockBindGroup g'.bindGroupGen g'.bufId,
              .draw, .submit]
      else
        g'.bufId = g.bufId ∧ g'.freed = g.freed ∧
        tr = [.writeCameraBuffer,
              .createBindGroup g'.bindGroupGen g'.bufId,
              .writeBlockBuffer g'.bufId,
              .beginPass, .setPipeline, .setCameraBindGroup,
              .setBlockBindGroup g'.bindGroupGen g'.bufId,
              .draw, .submit]) := by
  unfold gameRender at h
  split at h
  · simp at h
  · split at h
    · simp at h
    · split at h
      · simp at h
      · split at h
        · split at h
          · simp at h
          · rename_i hgrow _
            rw [Prod.mk.injEq] at h
            obtain ⟨hg', htr⟩ := h
            subst hg'
            injection htr with htr
            subst htr
            refine ⟨rfl, rfl, rfl, rfl, rfl, rfl, rfl, rfl, ?_⟩
            rw [if_pos hgrow]
            exact ⟨rfl, rfl, rfl⟩
        · rename_i hng
          rw [Prod.mk.injEq] at h
          obtain ⟨hg', htr⟩ := h
          subst hg'
          injection htr with htr
          subst htr
          refine ⟨rfl, rfl, rfl, rfl, rfl, rfl, rfl, ?_, ?_⟩
          · unfold growCap
            rw [if_neg hng]
          · rw [if_neg hng]
            exact ⟨rfl, rfl, rfl⟩

/-- Lemma: `Game::render` never changes the block list, its width, the materials
table or the device alignment, on any path (success or error). -/
theorem gameRender_preserves_scene (g : Game) :
    (gameRender g).1.blocks = g.blocks ∧
    (gameRender g).1.blocksWidth = g.blocksWidth ∧
    (gameRender g).1.materialsCount = g.materialsCount ∧
    (gameRender g).1.alignment = g.alignment := by
  unfold gameRender
  split
  · exact ⟨rfl, rfl, rfl, rfl⟩
  · split
    · exact ⟨rfl, rfl, rfl, rfl⟩
    · split
      · exact ⟨rfl, rfl, rfl, rfl⟩
      · split
        · split
          · exact ⟨rfl, rfl, rfl, rfl⟩
          · exact ⟨rfl, rfl, rfl, rfl⟩
        · exact ⟨rfl, rfl, rfl, rfl⟩

/-- Every reachable state still holds the construction-time scene:
the four fixed blocks and width 2 (`src/lib.rs:280-286`); nothing in the
program mutates them. -/
theorem reachable_scene_fixed (g : Game) (h : Reachable g) :
    g.blocks = [0, 1, 2, u32Max] ∧ g.blocksWidth = 2 := by
  induction h with
  | init w h => exact ⟨rfl, rfl⟩
  | render g hg ih =>
      obtain ⟨hb, hw⟩ := ih
      obtain ⟨hb', hw', _, _⟩ := gameRender_preserves_scene g
      exact ⟨hb' ▸ hb, hw' ▸ hw⟩
  | resize g w h hg ih => exact ih

/-! ## Claim theorems -/

/-- C1: after every completed write (a successful `Game::render`), the
block bind group references exactly the current backing buffer handle —
and never a handle freed by a prior growth, given the construction-time
invariant that every freed handle is older than the current one. -/
theorem c1_binding_consistency (g g' : Game) (tr : List Ev)
    (hfree : ∀ i ∈ g.freed, i < g.bufId)
    (h : gameRender g = (g', .ok tr)) :
    g'.bindGroupBuf = g'.bufId ∧ g'.bindGroupBuf ∉ g'.freed := by
  obtain ⟨-, -, -, -, -, -, hbg, -, hif⟩ := gameRender_ok_spec g g' tr h
  refine ⟨hbg, ?_⟩
  rw [hbg]
  by_cases hgr : needsGrowth g.bufCapacity (renderBufLen g) = true
  · rw [if_pos hgr] at hif
    obtain ⟨hid, hfr, -⟩ := hif
    rw [hid, hfr]
    intro hmem
    rcases List.mem_cons.mp hmem with heq | hmem'
    · omega
    · have := hfree _ hmem'
      omega
  · rw [if_neg hgr] at hif
    obtain ⟨hid, hfr, -⟩ := hif
    rw [hid, hfr]
    intro hmem
    have := hfree _ hmem
    omega

/-- Witness for C1 at the freshly constructed game (first frame, a growth
frame): the rebuilt bind group references the newly allocated handle. -/
theorem c1_binding_consistency_witness :
    (gameRender (initGame 800 600)).1.bindGroupBuf =
        (gameRender (initGame 800 600)).1.bufId ∧
    (gameRender (initGame 800 600)).1.bindGroupBuf ∉
        (gameRender (initGame 800 600)).1.freed :=
  c1_binding_consistency (initGame 800 600)
    ((gameRender (initGame 800 600)).1)
    [.writeCameraBuffer, .createBuffer 1, .createBindGroup 1 1,
     .writeBlockBuffer 1, .beginPass, .setPipeline, .setCameraBindGroup,
     .setBlockBindGroup 1 1, .draw, .submit]
    (by decide) (by decide)

/-- C2: in every successful render the materials-table tail offset is a
multiple of the device's minimum storage-buffer offset alignment (taken
from the state, where `Game::new` stored `device.limits()`) and is at
least the serialized chunk-prefix length. -/
theorem c2_tail_offset_alignment (g g' : Game) (tr : List Ev)
    (hA : 0 < g.alignment) (h : gameRender g = (g', .ok tr)) :
    g'.materialStorageStart % g.alignment = 0 ∧
    chunkSerializedSize g.blocks.length ≤ g'.materialStorageStart := by
  obtain ⟨hstart, -⟩ := gameRender_ok_spec g g' tr h
  rw [hstart]
  unfold renderTailStart
  exact ⟨alignUp_mod _ _ hA, le_alignUp _ _⟩

/-- Witness for C2 at the first frame (alignment 256, chunk prefix 32,
offset 256). -/
theorem c2_tail_offset_alignment_witness :
    (gameRender (initGame 800 600)).1.materialStorageStart %
        (initGame 800 600).alignment = 0 ∧
    chunkSerializedSize (initGame 800 600).blocks.length ≤
        (gameRender (initGame 800 600)).1.materialStorageStart :=
  c2_tail_offset_alignment (initGame 800 600)
    ((gameRender (initGame 800 600)).1)
    [.writeCameraBuffer, .createBuffer 1, .createBindGroup 1 1,
     .writeBlockBuffer 1, .beginPass, .setPipeline, .setCameraBindGroup,
     .setBlockBindGroup 1 1, .draw, .submit]
    (by decide) (by decide)

/-- C3 counterexample: in the very first frame the serialized length is
304 bytes and exceeds the initial 40-byte capacity, growth happens, but
the replacement buffer has size 320 = 304 + `materialsMinSize`, not the
serialized length 304 — the reallocation is not exact-fit. -/
theorem c3_growth_not_exact_fit :
    renderBufLen (initGame 800 600) = 304 ∧
    (initGame 800 600).bufCapacity = 40 ∧
    304 > 40 ∧
    (gameRender (initGame 800 600)).1.bufId = (initGame 800 600).bufId + 1 ∧
    (gameRender (initGame 800 600)).1.bufCapacity = 320 ∧
    (320 : Nat) ≠ 304 := by decide

/-- C3 amended: whenever the serialized length exceeds the current capacity
minus the materials-table minimum binding size (16 bytes), the backing
buffer is replaced (growth is observable as a new handle, and the bind
group is rebuilt onto it) with size exactly the serialized length plus
those 16 bytes. -/
theorem c3_growth_exact_fit_plus_min (g g' : Game) (tr : List Ev)
    (h : gameRender g = (g', .ok tr))
    (hgrow : needsGrowth g.bufCapacity (renderBufLen g) = true) :
    g'.bufCapacity = renderBufLen g + materialsMinSize ∧
    g'.bufId = g.bufId + 1 ∧
    g'.bindGroupBuf = g'.bufId := by
  obtain ⟨-, -, -, -, -, -, hbg, hcap, hif⟩ := gameRender_ok_spec g g' tr h
  rw [if_pos hgrow] at hif
  obtain ⟨hid, -, -⟩ := hif
  refine ⟨?_, hid, hbg⟩
  rw [hcap]
  unfold growCap
  rw [if_pos hgrow]

/-- Witness for the amended C3 at the first frame: capacity 40 grows to
320 for serialized length 304. -/
theorem c3_growth_exact_fit_plus_min_witness :
    (gameRender (initGame 800 600)).1.bufCapacity =
        renderBufLen (initGame 800 600) + materialsMinSize ∧
    (gameRender (initGame 800 600)).1.bufId = (initGame 800 600).bufId + 1 ∧
    (gameRender (initGame 800 600)).1.bindGroupBuf =
        (gameRender (initGame 800 600)).1.bufId :=
  c3_growth_exact_fit_plus_min (initGame 800 600)
    ((gameRender (initGame 800 600)).1)
    [.writeCameraBuffer, .createBuffer 1, .createBindGroup 1 1,
     .writeBlockBuffer 1, .beginPass, .setPipeline, .setCameraBindGroup,
     .setBlockBindGroup 1 1, .draw, .submit]
    (by decide) (by decide)

/-- C4, evaluated at the failing input: on the second consecutive render of
the unchanged initial scene no member buffer grows (the handle and its
capacity are unchanged and the growth test is false), yet `Game::render`
still constructs a fresh bind-group object every frame
(`src/lib.rs:550-572`; the `TODO` on line 550 records the intended
reuse), so the existing bind group is not reused unmodified. -/
theorem c4_rebuild_despite_no_growth :
    (gameRender (gameRender (initGame 800 600)).1).1.bufId =
        (gameRender (initGame 800 600)).1.bufId ∧
    (gameRender (gameRender (initGame 800 600)).1).1.bufCapacity =
        (gameRender (initGame 800 600)).1.bufCapacity ∧
    needsGrowth (gameRender (initGame 800 600)).1.bufCapacity
        (renderBufLen (gameRender (initGame 800 600)).1) = false ∧
    (gameRender (gameRender (initGame 800 600)).1).1.bindGroupGen =
        (gameRender (initGame 800 600)).1.bindGroupGen + 1 := by
  decide

/-- C5: for every sequence of write lengths, the capacity produced by
folding the growth step of `src/lib.rs:537-548` is at least the starting
capacity and at least every written length (hence at least their maximum),
and a single write never shrinks it: capacity is monotonically
non-decreasing. -/
theorem c5_capacity_monotone (Ls : List Nat) (cap : Nat) :
    cap ≤ Ls.foldl growCap cap ∧
    (∀ L ∈ Ls, L ≤ Ls.foldl growCap cap) ∧
    (∀ len, cap ≤ growCap cap len) :=
  ⟨le_foldl_growCap Ls cap,
   fun L hL => mem_le_foldl_growCap Ls cap L hL,
   fun len => le_growCap cap len⟩

/-- C6: in every successful render, once pass recording has begun no
buffer write occurs, and the pass attaches the camera bind group plus the
block bind group created in this frame after the writes — referencing the
post-growth current buffer. -/
theorem c6_writes_precede_pass (g g' : Game) (tr : List Ev)
    (h : gameRender g = (g', .ok tr)) :
    ((tr.dropWhile fun e => !(Ev.isPassStart e)).all
        fun e => !(Ev.isBufferWrite e)) = true ∧
    (Ev.setBlockBindGroup g'.bindGroupGen g'.bufId ∈
        tr.dropWhile fun e => !(Ev.isPassStart e)) ∧
    (Ev.setCameraBindGroup ∈ tr.dropWhile fun e => !(Ev.isPassStart e)) ∧
    g'.bindGroupGen = g.bindGroupGen + 1 ∧
    g'.bindGroupBuf = g'.bufId := by
  obtain ⟨-, -, -, -, -, hgen, hbg, -, hif⟩ := gameRender_ok_spec g g' tr h
  by_cases hgr : needsGrowth g.bufCapacity (renderBufLen g) = true
  · rw [if_pos hgr] at hif
    obtain ⟨-, -, htr⟩ := hif
    subst htr
    refine ⟨?_, ?_, ?_, hgen, hbg⟩ <;>
      simp [List.dropWhile, Ev.isPassStart, Ev.isBufferWrite]
  · rw [if_neg hgr] at hif
    obtain ⟨-, -, htr⟩ := hif
    subst htr
    refine ⟨?_, ?_, ?_, hgen, hbg⟩ <;>
      simp [List.dropWhile, Ev.isPassStart, Ev.isBufferWrite]

/-- Witness for C6 at the first frame. -/
theorem c6_writes_precede_pass_witness :
    (([Ev.writeCameraBuffer, .createBuffer 1, .createBindGroup 1 1,
        .writeBlockBuffer 1, .beginPass, .setPipeline, .setCameraBindGroup,
        .setBlockBindGroup 1 1, .draw,
        .submit].dropWhile fun e => !(Ev.isPassStart e)).all
        fun e => !(Ev.isBufferWrite e)) = true ∧
    (Ev.setBlockBindGroup (gameRender (initGame 800 600)).1.bindGroupGen
        (gameRender (initGame 800 600)).1.bufId ∈
        [Ev.writeCameraBuffer, .createBuffer 1, .createBindGroup 1 1,
         .writeBlockBuffer 1, .beginPass, .setPipeline, .setCameraBindGroup,
         .setBlockBindGroup 1 1, .draw,
         .submit].dropWhile fun e => !(Ev.isPassStart e)) ∧
    (Ev.setCameraBindGroup ∈
        [Ev.writeCameraBuffer, .createBuffer 1, .createBindGroup 1 1,
         .writeBlockBuffer 1, .beginPass, .setPipeline, .setCameraBindGroup,
         .setBlockBindGroup 1 1, .draw,
         .submit].dropWhile fun e => !(Ev.isPassStart e)) ∧
    (gameRender (initGame 800 600)).1.bindGroupGen =
        (initGame 800 600).bindGroupGen + 1 ∧
    (gameRender (initGame 800 600)).1.bindGroupBuf =
        (gameRender (initGame 800 600)).1.bufId :=
  c6_writes_precede_pass (initGame 800 600)
    ((gameRender (initGame 800 600)).1)
    [.writeCameraBuffer, .createBuffer 1, .createBindGroup 1 1,
     .writeBlockBuffer 1, .beginPass, .setPipeline, .setCameraBindGroup,
     .setBlockBindGroup 1 1, .draw, .submit]
    (by decide)

/-- C7: whenever `Game::render` returns an error (in particular when an
integer conversion of a length fails), the backing buffer is left
unchanged: same capacity, same handle, nothing newly freed, and the bind
group is untouched — no partial reallocation is observable. -/
theorem c7_error_leaves_buffer (g g' : Game) (e : RenderError)
    (h : gameRender g = (g', .err e)) :
    g'.bufCapacity = g.bufCapacity ∧ g'.bufId = g.bufId ∧
    g'.freed = g.freed ∧ g'.bindGroupGen = g.bindGroupGen ∧
    g'.bindGroupBuf = g.bindGroupBuf := by
  unfold gameRender at h
  split at h
  · rw [Prod.mk.injEq] at h
    obtain ⟨hg', -⟩ := h
    subst hg'
    exact ⟨rfl, rfl, rfl, rfl, rfl⟩
  · split at h
    · rw [Prod.mk.injEq] at h
      obtain ⟨hg', -⟩ := h
      subst hg'
      exact ⟨rfl, rfl, rfl, rfl, rfl⟩
    · split at h
      · rw [Prod.mk.injEq] at h
        obtain ⟨hg', -⟩ := h
        subst hg'
        exact ⟨rfl, rfl, rfl, rfl, rfl⟩
      · split at h
        · split at h
          · rw [Prod.mk.injEq] at h
            obtain ⟨hg', -⟩ := h
            subst hg'
            exact ⟨rfl, rfl, rfl, rfl, rfl⟩
          · simp at h
        · simp at h

/-- Witness for C7: a game whose block list has `2 ^ 32` entries drives
`u32::try_from(self.blocks.len())?` into its error path, and the backing
buffer fields are unchanged. -/
theorem c7_error_leaves_buffer_witness :
    (gameRender overflowGame).2 = RenderOut.err .conversionFailed ∧
    (gameRender overflowGame).1.bufCapacity = overflowGame.bufCapacity ∧
    (gameRender overflowGame).1.bufId = overflowGame.bufId ∧
    (gameRender overflowGame).1.freed = overflowGame.freed ∧
    (gameRender overflowGame).1.bindGroupGen = overflowGame.bindGroupGen ∧
    (gameRender overflowGame).1.bindGroupBuf = overflowGame.bindGroupBuf := by
  have hlen : overflowGame.blocks.length = 2 ^ 32 := by
    unfold overflowGame
    exact List.length_replicate _ _
  have hw : overflowGame.blocksWidth = 2 := rfl
  have h1 : ¬¬(overflowGame.blocks.length = 0 ∨
      overflowGame.blocks.length % overflowGame.blocksWidth = 0) := by
    rw [hlen, hw]
    decide
  have h2 : ¬(overflowGame.blocks.length < 2 ^ 32) := by
    rw [hlen]
    decide
  have heq : gameRender overflowGame =
      (overflowGame, RenderOut.err .conversionFailed) := by
    unfold gameRender
    rw [if_neg h1, if_pos h2]
  have h : gameRender overflowGame =
      ((gameRender overflowGame).1, RenderOut.err .conversionFailed) := by
    rw [heq]
  obtain ⟨hc, hb, hf, hg, hbb⟩ :=
    c7_error_leaves_buffer overflowGame ((gameRender overflowGame).1)
      .conversionFailed h
  exact ⟨by rw [heq], hc, hb, hf, hg, hbb⟩

/-- C8 counterexample: in `App::window_event`
(`src/bin/raytracing_2d.rs:139-168`) a `Timeout` does not skip the frame —
acquisition is retried in a loop inside the same redraw event, a warning
is printed (count 1, not silent), and the frame is rendered in that same
event; likewise a `Lost` error is retried rather than escalated. -/
theorem c8_timeout_renders_same_event :
    appAcquireLoop [SurfaceRes.err .timeout, SurfaceRes.ok] =
        (AppOutcome.rendered, 1) ∧
    appAcquireLoop [SurfaceRes.err .lost, SurfaceRes.ok] =
        (AppOutcome.rendered, 0) := by
  decide

/-- C8 amended: in `Game::handle_event` a `Timeout` or `Outdated`
acquisition failure skips exactly that frame silently and any other error
is escalated; in the `raytracing_2d` binary, `Timeout` (with a printed
warning), `Outdated` (after a resize) and `Lost` (after a reconfigure) are
retried within the same redraw event, and only `OutOfMemory`/`Other`
abort it without rendering. -/
theorem c8_surface_error_handling (rest : List SurfaceRes) :
    gameHandleRedraw .ok = .rendered ∧
    gameHandleRedraw (.err .timeout) = .skipped ∧
    gameHandleRedraw (.err .outdated) = .skipped ∧
    gameHandleRedraw (.err .lost) = .escalated .lost ∧
    gameHandleRedraw (.err .outOfMemory) = .escalated .outOfMemory ∧
    appAcquireLoop (.err .timeout :: rest) =
        ((appAcquireLoop rest).1, (appAcquireLoop rest).2 + 1) ∧
    appAcquireLoop (.err .outdated :: rest) = appAcquireLoop rest ∧
    appAcquireLoop (.err .lost :: rest) = appAcquireLoop rest ∧
    appAcquireLoop (.err .outOfMemory :: rest) =
        (.aborted .outOfMemory, 0) ∧
    appAcquireLoop (.ok :: rest) = (.rendered, 0) := by
  refine ⟨rfl, rfl, rfl, rfl, rfl, ?_, rfl, rfl, rfl, rfl⟩
  simp [appAcquireLoop]

/-- C9: every resize clamps both surface dimensions to at least 1 and
recomputes the camera aspect ratio from exactly the clamped dimensions, so
its denominator is never zero; the `resized` closure of the `raytracing_2d`
binary clamps the same way. -/
theorem c9_resize_clamps (g : Game) (w h : Nat) :
    (gameResize g w h).surfaceWidth = max w 1 ∧
    (gameResize g w h).surfaceHeight = max h 1 ∧
    1 ≤ (gameResize g w h).surfaceWidth ∧
    1 ≤ (gameResize g w h).surfaceHeight ∧
    (gameResize g w h).aspectNum = (gameResize g w h).surfaceWidth ∧
    (gameResize g w h).aspectDen = (gameResize g w h).surfaceHeight ∧
    0 < (gameResize g w h).aspectDen ∧
    appResized w h = (max w 1, max h 1) ∧
    0 < (appResized w h).2 :=
  ⟨rfl, rfl, Nat.le_max_right w 1, Nat.le_max_right h 1, rfl, rfl,
   Nat.lt_of_lt_of_le Nat.zero_lt_one (Nat.le_max_right h 1), rfl,
   Nat.lt_of_lt_of_le Nat.zero_lt_one (Nat.le_max_right h 1)⟩

/-- C10: in every reachable state the assertion guarding the chunk
serialization holds (the block list is empty or its length is a multiple
of the width — here always 4 and 2, fixed at construction), and the
vertical cell count is the guarded, non-panicking division:
`len / width` when the width is nonzero and `0` otherwise. -/
theorem c10_guarded_division (g : Game) (h : Reachable g) :
    (g.blocks.length = 0 ∨ g.blocks.length % g.blocksWidth = 0) ∧
    chunkSizeY g.blocks.length g.blocksWidth =
      (if g.blocksWidth ≠ 0 then g.blocks.length / g.blocksWidth else 0) ∧
    g.blocks.length = 4 ∧ g.blocksWidth = 2 ∧
    (∀ len width : Nat, chunkSizeY len width =
      if width ≠ 0 then len / width else 0) := by
  obtain ⟨hb, hw⟩ := reachable_scene_fixed g h
  have hgen : ∀ len width : Nat,
      chunkSizeY len width = if width ≠ 0 then len / width else 0 := by
    intro len width
    unfold chunkSizeY checkedDiv
    by_cases hwz : width = 0
    · simp [hwz]
    · simp [hwz]
  refine ⟨?_, hgen _ _, ?_, hw, hgen⟩
  · right
    rw [hb, hw]
    decide
  · rw [hb]
    decide

/-- Witness for C10 at the freshly constructed game. -/
theorem c10_guarded_division_witness :
    ((initGame 1 1).blocks.length = 0 ∨
      (initGame 1 1).blocks.length % (initGame 1 1).blocksWidth = 0) ∧
    chunkSizeY (initGame 1 1).blocks.length (initGame 1 1).blocksWidth =
      (if (initGame 1 1).blocksWidth ≠ 0 then
        (initGame 1 1).blocks.length / (initGame 1 1).blocksWidth else 0) ∧
    (initGame 1 1).blocks.length = 4 ∧ (initGame 1 1).blocksWidth = 2 ∧
    (∀ len width : Nat, chunkSizeY len width =
      if width ≠ 0 then len / width else 0) :=
  c10_guarded_division (initGame 1 1) (Reachable.init 1 1)
